import Mathlib

/-!
Verification of the 2d-material render pipeline of `bevy_sprite`
(`crates/bevy_sprite/src/mesh2d/material.rs`), as a shallow embedding.

Conventions of the embedding:
- entity ids, asset ids, bind-group ids, shader handles, pipeline ids and
  bind-group-layout handles are `Nat`;
- the `f32` values the module merely stores and adds (`depth_bias`, the
  transform's `z` translation) are modeled as `Rat`;
- hash maps (`EntityHashMap`, `RenderAssets`) are modeled as functions into
  `Option`;
- the `Mesh2dPipelineKey` bit-set lives in `mesh2d/mesh.rs`, outside the file
  under study; following the spec it is modeled as a fixed set of named fields
  combined by explicit or-composition.
-/

/-- Tonemapping method attached to a view (`bevy_core_pipeline`); one
constructor per method matched by `tonemapping_pipeline_key`. -/
inductive Tonemapping where
  | None
  | Reinhard
  | ReinhardLuminance
  | AcesFitted
  | AgX
  | SomewhatBoringDisplayTransform
  | TonyMcMapface
  | BlenderFilmic
deriving DecidableEq, Repr

/-- Deband-dither setting attached to a view (`bevy_core_pipeline`). -/
inductive DebandDither where
  | Disabled
  | Enabled
deriving DecidableEq, Repr

/-- Sets how a 2d material's base color alpha channel is used for
transparency (source lines 148-156): `Opaque` or `Blend`. -/
inductive AlphaMode2d where
  | Opaque
  | Blend
deriving DecidableEq, Repr

/-- Modelled from the spec: the composite Pipeline Key (`Mesh2dPipelineKey`,
defined in the repository's `mesh2d/mesh.rs`, not under the sources given).
Per the spec's design note it is a fixed-width set of named fields combined
via explicit or-composition: view flags (MSAA samples, HDR, tonemapping
method, in-shader tonemapping, dither), material flags (blend alpha) and the
mesh topology flag. -/
structure Mesh2dPipelineKey where
  hdr : Bool := false
  tonemapInShader : Bool := false
  debandDither : Bool := false
  blendAlpha : Bool := false
  msaaSamples : Nat := 0
  tonemapMethod : Option Tonemapping := none
  primitiveTopology : Nat := 0
deriving DecidableEq, Repr

namespace Mesh2dPipelineKey

/-- Or-composition of two keys: booleans join with `||`, the numeric bit
ranges with bitwise or, the method field keeps the left value when set. -/
def or (a b : Mesh2dPipelineKey) : Mesh2dPipelineKey where
  hdr := a.hdr || b.hdr
  tonemapInShader := a.tonemapInShader || b.tonemapInShader
  debandDither := a.debandDither || b.debandDither
  blendAlpha := a.blendAlpha || b.blendAlpha
  msaaSamples := Nat.lor a.msaaSamples b.msaaSamples
  tonemapMethod := match a.tonemapMethod with
    | some t => some t
    | none => b.tonemapMethod
  primitiveTopology := Nat.lor a.primitiveTopology b.primitiveTopology

/-- The empty flag set (`Mesh2dPipelineKey::NONE`). -/
def NONE : Mesh2dPipelineKey := {}

/-- The empty flag set (`Mesh2dPipelineKey::empty()`). -/
def empty : Mesh2dPipelineKey := {}

/-- The in-shader tonemapping flag. -/
def TONEMAP_IN_SHADER : Mesh2dPipelineKey := { tonemapInShader := true }

/-- The deband-dither flag. -/
def DEBAND_DITHER : Mesh2dPipelineKey := { debandDither := true }

/-- The alpha-blend flag contributed by a `Blend` material. -/
def BLEND_ALPHA : Mesh2dPipelineKey := { blendAlpha := true }

/-- Modelled from the spec: `Mesh2dPipelineKey::from_msaa_samples` records the
view's MSAA sample count in its reserved bit range. -/
def from_msaa_samples (samples : Nat) : Mesh2dPipelineKey :=
  { msaaSamples := samples }

/-- Modelled from the spec: `Mesh2dPipelineKey::from_hdr` records the view's
HDR flag. -/
def from_hdr (hdr : Bool) : Mesh2dPipelineKey :=
  { hdr := hdr }

/-- Modelled from the spec: `Mesh2dPipelineKey::from_primitive_topology`
records the mesh topology in its reserved bit range. -/
def from_primitive_topology (topology : Nat) : Mesh2dPipelineKey :=
  { primitiveTopology := topology }

/-- Bitflags `insert`: or the other flag set in. -/
def insert (a b : Mesh2dPipelineKey) : Mesh2dPipelineKey := a.or b

end Mesh2dPipelineKey

/-- Source lines 374-379: `alpha_mode_pipeline_key` maps `Blend` to the
`BLEND_ALPHA` flag and every other mode to `NONE`. -/
def alpha_mode_pipeline_key (alpha_mode : AlphaMode2d) : Mesh2dPipelineKey :=
  match alpha_mode with
  | AlphaMode2d.Blend => Mesh2dPipelineKey.BLEND_ALPHA
  | _ => Mesh2dPipelineKey.NONE

/-- Source lines 381-394: `tonemapping_pipeline_key` maps each tonemapping
method to its method flag; the model records the method itself as the
flag value (each variant yields a distinct flag, as in the source). -/
def tonemapping_pipeline_key (tonemapping : Tonemapping) : Mesh2dPipelineKey :=
  { tonemapMethod := some tonemapping }

/-- Source lines 436-447: the view portion of the pipeline key built by
`queue_material2d_meshes` from MSAA samples, the HDR flag, and the view's
optional tonemapping and dither settings. -/
def material2d_view_key (hdr : Bool) (msaaSamples : Nat)
    (tonemapping : Option Tonemapping) (dither : Option DebandDither) :
    Mesh2dPipelineKey :=
  let k0 := (Mesh2dPipelineKey.from_msaa_samples msaaSamples).or
    (Mesh2dPipelineKey.from_hdr hdr)
  if !hdr then
    let k1 := match tonemapping with
      | some t => (k0.or Mesh2dPipelineKey.TONEMAP_IN_SHADER).or
          (tonemapping_pipeline_key t)
      | none => k0
    match dither with
    | some DebandDither.Enabled => k1.or Mesh2dPipelineKey.DEBAND_DITHER
    | _ => k1
  else
    k0

/-- Error reported by `AsBindGroup::as_bind_group` when a binding dependency
is not ready (`bevy_render::render_resource`): the single variant
`RetryNextUpdate`. -/
inductive AsBindGroupError where
  | RetryNextUpdate
deriving DecidableEq, Repr

/-- Result of a successful `as_bind_group` call: the owned binding resources,
the bind group (by id) and the bind-group key data used for pipeline
specialization. -/
structure PreparedBindGroup (Data : Type) where
  bindings : List (Nat × Nat)
  bind_group : Nat
  data : Data

/-- A source material, seen through the Material Contract: its declared alpha
mode and depth bias, and its binding-group construction as a function of the
GPU context (device, images, fallback image), which either succeeds or asks
to retry. -/
structure SourceMaterial (Ctx Data : Type) where
  alpha_mode : AlphaMode2d
  depth_bias : Rat
  as_bind_group : Ctx → Except AsBindGroupError (PreparedBindGroup Data)

/-- Source lines 524-536: common `Material2d` properties computed for a
specific material instance. -/
structure Material2dProperties where
  alpha_mode : AlphaMode2d
  depth_bias : Rat
  mesh_pipeline_key_bits : Mesh2dPipelineKey

/-- Source lines 539-544: data prepared for a `Material2d` instance. -/
structure PreparedMaterial2d (Data : Type) where
  bindings : List (Nat × Nat)
  bind_group : Nat
  key : Data
  properties : Material2dProperties

/-- Error of `RenderAsset::prepare_asset`: `RetryNextUpdate` carries the
source asset back to the queue (`bevy_render::render_asset`). -/
inductive PrepareAssetError (S : Type) where
  | RetryNextUpdate (source : S)

/-- Source lines 562-590: `PreparedMaterial2d::prepare_asset`. Calls
`as_bind_group`; on success computes the pipeline-key bits from the alpha
mode and assembles the prepared material; on `RetryNextUpdate` returns the
source material inside the retry error. -/
def prepare_asset {Ctx Data : Type} (material : SourceMaterial Ctx Data)
    (ctx : Ctx) :
    Except (PrepareAssetError (SourceMaterial Ctx Data))
      (PreparedMaterial2d Data) :=
  match material.as_bind_group ctx with
  | Except.ok prepared =>
    let mesh_pipeline_key_bits :=
      Mesh2dPipelineKey.empty.insert (alpha_mode_pipeline_key material.alpha_mode)
    Except.ok
      { bindings := prepared.bindings
        bind_group := prepared.bind_group
        key := prepared.data
        properties :=
          { depth_bias := material.depth_bias
            alpha_mode := material.alpha_mode
            mesh_pipeline_key_bits := mesh_pipeline_key_bits } }
  | Except.error AsBindGroupError.RetryNextUpdate =>
    Except.error (PrepareAssetError.RetryNextUpdate material)

/-- Pointwise update of a map modeled as a function into `Option`
(hash-map `insert`). -/
def updateFn {A : Type} (m : Nat → Option A) (k : Nat) (v : A) :
    Nat → Option A :=
  fun q => if q = k then some v else m q

/-- Modelled from the spec: one step of the render-asset preparation system
(`prepare_assets` of `bevy_render::render_asset`, not under the sources
given) for one queued material: on success the prepared material is stored in
the render-side cache under the material's identifier; on `RetryNextUpdate`
the cache is left untouched and the source material is requeued for a
subsequent frame. Returns the new cache and the list of requeued sources. -/
def prepare_assets_step {Ctx Data : Type}
    (cache : Nat → Option (PreparedMaterial2d Data)) (id : Nat)
    (material : SourceMaterial Ctx Data) (ctx : Ctx) :
    (Nat → Option (PreparedMaterial2d Data)) × List (SourceMaterial Ctx Data) :=
  match prepare_asset material ctx with
  | Except.ok prepared => (updateFn cache id prepared, [])
  | Except.error (PrepareAssetError.RetryNextUpdate source) => (cache, [source])

/-- Vertex stage of a pipeline descriptor: the shader handle the stage runs,
plus the remaining stage data (entry point, buffers) abstracted into one
field. -/
structure VertexState where
  shader : Nat
  stageData : Nat := 0
deriving DecidableEq, Repr

/-- Fragment stage of a pipeline descriptor, same shape as the vertex
stage. -/
structure FragmentState where
  shader : Nat
  stageData : Nat := 0
deriving DecidableEq, Repr

/-- Render-pipeline descriptor (`bevy_render::render_resource`): the fields
`Material2dPipeline::specialize` touches (vertex stage, optional fragment
stage, bind-group layout list) plus the remaining state abstracted into one
field. -/
structure RenderPipelineDescriptor where
  vertex : VertexState
  fragment : Option FragmentState
  layout : List Nat
  otherState : Nat := 0
deriving DecidableEq, Repr

/-- Source lines 230-233: `Material2dKey` pairs the mesh-pipeline key with
the material's bind-group data. -/
structure Material2dKey (Data : Type) where
  mesh_key : Mesh2dPipelineKey
  bind_group_data : Data
deriving DecidableEq

/-- Source lines 221-228: render pipeline data for a given `Material2d`.
The base mesh-2d specializer (`Mesh2dPipeline::specialize`, in
`mesh2d/mesh.rs`) and the material's `specialize` hook (a `Material2d` trait
method with arbitrary user implementation) are kept abstract as function
fields; the hook mutates the descriptor in place, modeled by state passing.
Layouts and shader handles are ids; the specialization error type is `Nat`. -/
structure Material2dPipeline (Data : Type) where
  view_layout : Nat
  mesh_layout : Nat
  material2d_layout : Nat
  vertex_shader : Option Nat
  fragment_shader : Option Nat
  mesh2d_specialize : Mesh2dPipelineKey → Nat →
    Except Nat RenderPipelineDescriptor
  material_specialize : RenderPipelineDescriptor → Nat → Material2dKey Data →
    Except Nat RenderPipelineDescriptor

/-- Outcome of `Material2dPipeline::specialize`: a descriptor, a
specialization error, or the panic of the `unwrap` on a missing fragment
stage. -/
inductive SpecializeResult where
  | ok (descriptor : RenderPipelineDescriptor)
  | err (e : Nat)
  | panicked
deriving DecidableEq, Repr

/-- Source lines 286-307: `Material2dPipeline::specialize`. Gets a descriptor
from the base mesh-2d specializer (propagating its error), overrides the
vertex shader when one is declared, overrides the fragment shader when one is
declared (unwrapping the fragment stage: a missing stage panics), sets the
layout list to view, mesh, material, then runs the material's hook last,
propagating its error. -/
def Material2dPipeline.specialize {Data : Type} (p : Material2dPipeline Data)
    (key : Material2dKey Data) (layout : Nat) : SpecializeResult :=
  match p.mesh2d_specialize key.mesh_key layout with
  | Except.error e => SpecializeResult.err e
  | Except.ok d0 =>
    let d1 := match p.vertex_shader with
      | some vertex_shader => { d0 with vertex := { d0.vertex with shader := vertex_shader } }
      | none => d0
    let step2 := fun (d2 : RenderPipelineDescriptor) =>
      let d3 := { d2 with
        layout := [p.view_layout, p.mesh_layout, p.material2d_layout] }
      match p.material_specialize d3 layout key with
      | Except.error e => SpecializeResult.err e
      | Except.ok d4 => SpecializeResult.ok d4
    match p.fragment_shader, d1.fragment with
    | some _, none => SpecializeResult.panicked
    | some fragment_shader, some f =>
      step2 { d1 with fragment := some { f with shader := fragment_shader } }
    | none, _ => step2 d1

/-- Association-list lookup with decidable key equality. -/
def lookupKey {A B : Type} [DecidableEq A] : List (A × B) → A → Option B
  | [], _ => none
  | (a, b) :: rest, k => if a = k then some b else lookupKey rest k

/-- Modelled from the spec: the specialized-mesh-pipeline cache
(`SpecializedMeshPipelines` of `bevy_render`, not under the sources given):
a memo table from (mesh-layout id, material-2d key) to a compiled pipeline
handle, plus the counter handing out fresh pipeline ids on insertion. -/
structure SpecializedMeshPipelines (Data : Type) where
  table : List ((Nat × Material2dKey Data) × Nat)
  next_id : Nat
deriving DecidableEq

/-- Modelled from the spec: `SpecializedMeshPipelines::specialize`, the
memo-table lookup-or-insert. A hit returns the existing handle without
recomputation; a miss runs `Material2dPipeline.specialize` and on success
inserts a fresh pipeline id; an error is returned with nothing inserted. The
returned `Bool` records whether the specialization computation (and so the
material's hook) ran; `none` propagates a panic of the computation. -/
def SpecializedMeshPipelines.specialize {Data : Type} [DecidableEq Data]
    (st : SpecializedMeshPipelines Data) (p : Material2dPipeline Data)
    (key : Material2dKey Data) (layout : Nat) :
    Option ((Except Nat Nat) × SpecializedMeshPipelines Data × Bool) :=
  match lookupKey st.table (layout, key) with
  | some id => some (Except.ok id, st, false)
  | none =>
    match p.specialize key layout with
    | SpecializeResult.panicked => none
    | SpecializeResult.err e => some (Except.error e, st, true)
    | SpecializeResult.ok _ =>
      some (Except.ok st.next_id,
        { table := ((layout, key), st.next_id) :: st.table
          next_id := st.next_id + 1 },
        true)

/-- GPU mesh data resolved from the mesh resource table
(`bevy_render::mesh::RenderMesh`): the primitive topology and the
vertex-buffer layout (by id) read by queuing. -/
structure RenderMesh where
  primitive_topology : Nat
  layout : Nat
deriving DecidableEq, Repr

/-- Entry of the mesh-instance table (`RenderMesh2dInstances`): the fields
read and written by `queue_material2d_meshes` — the mesh asset id, the `z`
translation of the world-from-local transform, the automatic-batching flag
and the cached material bind-group id. -/
structure RenderMesh2dInstance where
  mesh_asset_id : Nat
  transform_z : Rat
  automatic_batching : Bool
  material_bind_group_id : Option Nat
deriving DecidableEq, Repr

/-- Source import of `bevy_core_pipeline::core_2d::Opaque2dBinKey`: the bin
key of the opaque 2d phase as built at source lines 488-493. -/
structure Opaque2dBinKey where
  pipeline : Nat
  draw_function : Nat
  asset_id : Nat
  material_bind_group_id : Option Nat
deriving DecidableEq, Repr

/-- Phase-item classification passed to `BinnedRenderPhase::add`
(`bevy_render::render_phase`): `BinnedRenderPhaseType::mesh(batchable)`
picks between the batchable and unbatchable mesh kinds. -/
inductive BinnedRenderPhaseType where
  | BatchableMesh
  | UnbatchableMesh
deriving DecidableEq, Repr

/-- `BinnedRenderPhaseType::mesh`: batchable meshes bin as `BatchableMesh`,
others as `UnbatchableMesh`. -/
def BinnedRenderPhaseType.mesh (batchable : Bool) : BinnedRenderPhaseType :=
  if batchable then BinnedRenderPhaseType.BatchableMesh
  else BinnedRenderPhaseType.UnbatchableMesh

/-- Source import of `bevy_core_pipeline::core_2d::Transparent2d`: the sorted
transparent phase item as built at source lines 501-513; the batch range
`0..1` is the pair of bounds, `PhaseItemExtraIndex::NONE` is `none`. -/
structure Transparent2d where
  entity : Nat
  draw_function : Nat
  pipeline : Nat
  sort_key : Rat
  batch_range_start : Nat
  batch_range_end : Nat
  extra_index : Option Nat
deriving DecidableEq, Repr

/-- What the queuing loop body does with one visible entity: skip it, add a
binned item to the view's opaque phase, or append a sort item to the view's
transparent phase. -/
inductive QueueAction where
  | skip
  | opaque2d (bin_key : Opaque2dBinKey) (entity : Nat)
      (phase_type : BinnedRenderPhaseType)
  | transparent2d (item : Transparent2d)
deriving DecidableEq, Repr

/-- Source lines 448-516: the body of the per-entity loop of
`queue_material2d_meshes` for one visible entity. Looks the entity up in the
material instance map, the mesh-instance table, the render-material cache and
the mesh resource table, skipping (`continue`) when any lookup fails; builds
the mesh key; specializes through the pipeline cache, skipping on error (the
error is logged, a side effect with no model); on success stores the material
bind-group id in the mesh instance and dispatches on the material's alpha
mode. Returns the action together with the updated pipeline cache and
mesh-instance table; `none` models a panic inside specialization. -/
def queue_material2d_entity {Data : Type} [DecidableEq Data]
    (p : Material2dPipeline Data)
    (render_meshes : Nat → Option RenderMesh)
    (render_materials : Nat → Option (PreparedMaterial2d Data))
    (render_material_instances : Nat → Option Nat)
    (draw_opaque_2d draw_transparent_2d : Nat)
    (view_key : Mesh2dPipelineKey)
    (pipelines : SpecializedMeshPipelines Data)
    (render_mesh_instances : Nat → Option RenderMesh2dInstance)
    (visible_entity : Nat) :
    Option (QueueAction × SpecializedMeshPipelines Data ×
      (Nat → Option RenderMesh2dInstance)) :=
  match render_material_instances visible_entity with
  | none => some (QueueAction.skip, pipelines, render_mesh_instances)
  | some material_asset_id =>
  match render_mesh_instances visible_entity with
  | none => some (QueueAction.skip, pipelines, render_mesh_instances)
  | some mesh_instance =>
  match render_materials material_asset_id with
  | none => some (QueueAction.skip, pipelines, render_mesh_instances)
  | some material_2d =>
  match render_meshes mesh_instance.mesh_asset_id with
  | none => some (QueueAction.skip, pipelines, render_mesh_instances)
  | some mesh =>
    let mesh_key := (view_key.or
      (Mesh2dPipelineKey.from_primitive_topology mesh.primitive_topology)).or
      material_2d.properties.mesh_pipeline_key_bits
    match pipelines.specialize p
      { mesh_key := mesh_key, bind_group_data := material_2d.key }
      mesh.layout with
    | none => none
    | some (Except.error _, pipelines2, _) =>
      some (QueueAction.skip, pipelines2, render_mesh_instances)
    | some (Except.ok pipeline_id, pipelines2, _) =>
      let mesh_instance2 := { mesh_instance with
        material_bind_group_id := some material_2d.bind_group }
      let render_mesh_instances2 :=
        updateFn render_mesh_instances visible_entity mesh_instance2
      let mesh_z := mesh_instance.transform_z
      match material_2d.properties.alpha_mode with
      | AlphaMode2d.Opaque =>
        some (QueueAction.opaque2d
          { pipeline := pipeline_id
            draw_function := draw_opaque_2d
            asset_id := mesh_instance.mesh_asset_id
            material_bind_group_id := some material_2d.bind_group }
          visible_entity
          (BinnedRenderPhaseType.mesh mesh_instance.automatic_batching),
          pipelines2, render_mesh_instances2)
      | AlphaMode2d.Blend =>
        some (QueueAction.transparent2d
          { entity := visible_entity
            draw_function := draw_transparent_2d
            pipeline := pipeline_id
            sort_key := mesh_z + material_2d.properties.depth_bias
            batch_range_start := 0
            batch_range_end := 1
            extra_index := none },
          pipelines2, render_mesh_instances2)

/-- Source lines 448-516: the per-entity loop of `queue_material2d_meshes`
over one view's visible-entity list, threading the pipeline cache and the
mesh-instance table and accumulating the two phase containers; `none` models
a panic inside specialization. -/
def queue_material2d_view {Data : Type} [DecidableEq Data]
    (p : Material2dPipeline Data)
    (render_meshes : Nat → Option RenderMesh)
    (render_materials : Nat → Option (PreparedMaterial2d Data))
    (render_material_instances : Nat → Option Nat)
    (draw_opaque_2d draw_transparent_2d : Nat)
    (view_key : Mesh2dPipelineKey)
    (visible_entities : List Nat)
    (pipelines : SpecializedMeshPipelines Data)
    (render_mesh_instances : Nat → Option RenderMesh2dInstance)
    (opaque_phase : List (Opaque2dBinKey × Nat × BinnedRenderPhaseType))
    (transparent_phase : List Transparent2d) :
    Option ((List (Opaque2dBinKey × Nat × BinnedRenderPhaseType)) ×
      List Transparent2d × SpecializedMeshPipelines Data ×
      (Nat → Option RenderMesh2dInstance)) :=
  match visible_entities with
  | [] => some (opaque_phase, transparent_phase, pipelines,
      render_mesh_instances)
  | visible_entity :: rest =>
    match queue_material2d_entity p render_meshes render_materials
      render_material_instances draw_opaque_2d draw_transparent_2d view_key
      pipelines render_mesh_instances visible_entity with
    | none => none
    | some (QueueAction.skip, pipelines2, render_mesh_instances2) =>
      queue_material2d_view p render_meshes render_materials
        render_material_instances draw_opaque_2d draw_transparent_2d view_key
        rest pipelines2 render_mesh_instances2 opaque_phase transparent_phase
    | some (QueueAction.opaque2d bin_key entity phase_type, pipelines2,
        render_mesh_instances2) =>
      queue_material2d_view p render_meshes render_materials
        render_material_instances draw_opaque_2d draw_transparent_2d view_key
        rest pipelines2 render_mesh_instances2
        (opaque_phase ++ [(bin_key, entity, phase_type)]) transparent_phase
    | some (QueueAction.transparent2d item, pipelines2,
        render_mesh_instances2) =>
      queue_material2d_view p render_meshes render_materials
        render_material_instances draw_opaque_2d draw_transparent_2d view_key
        rest pipelines2 render_mesh_instances2 opaque_phase
        (transparent_phase ++ [item])

/-- One iteration of the extraction loop (source lines 213-217): insert the
entity when its view visibility is true, otherwise leave the map alone. The
query row is (entity, view-visibility flag, material handle id). -/
def extractStep (m : Nat → Option Nat) (row : Nat × Bool × Nat) :
    Nat → Option Nat :=
  if row.2.1 then updateFn m row.1 row.2.2 else m

set_option linter.unusedVariables false in
/-- Source lines 208-218: `extract_material_meshes_2d`. Clears the previous
material instance map (the parameter `material_instances`, discarded by the
clear), then inserts every queried entity whose view-visibility flag is true,
mapped to its material's asset id. -/
def extract_material_meshes_2d (material_instances : Nat → Option Nat)
    (query : List (Nat × Bool × Nat)) : Nat → Option Nat :=
  let cleared : Nat → Option Nat := fun _ => none
  List.foldl extractStep cleared query

/-! Concrete instances used to evaluate the development on closed inputs. -/

/-- A concrete source material with alpha mode `Blend`, depth bias `1`, and a
ready bind group. -/
def wMatBlend : SourceMaterial Unit Unit where
  alpha_mode := AlphaMode2d.Blend
  depth_bias := 1
  as_bind_group := fun _ =>
    Except.ok { bindings := [], bind_group := 7, data := () }

/-- A concrete source material whose bind-group construction asks to retry. -/
def wMatRetry : SourceMaterial Unit Unit where
  alpha_mode := AlphaMode2d.Opaque
  depth_bias := 0
  as_bind_group := fun _ => Except.error AsBindGroupError.RetryNextUpdate

/-- An empty render-material cache. -/
def wEmptyCache : Nat → Option (PreparedMaterial2d Unit) := fun _ => none

/-- A concrete pipeline descriptor with a fragment stage present. -/
def wDescriptor : RenderPipelineDescriptor where
  vertex := { shader := 100, stageData := 3 }
  fragment := some { shader := 101, stageData := 4 }
  layout := [50]
  otherState := 6

/-- A concrete material-2d pipeline that declares no custom shaders; the base
specializer always yields `wDescriptor` and the hook is the default no-op. -/
def wPipeline : Material2dPipeline Unit where
  view_layout := 1
  mesh_layout := 2
  material2d_layout := 3
  vertex_shader := none
  fragment_shader := none
  mesh2d_specialize := fun _ _ => Except.ok wDescriptor
  material_specialize := fun d _ _ => Except.ok d

/-- A concrete material-2d pipeline that declares custom vertex and fragment
shaders. -/
def wPipelineFrag : Material2dPipeline Unit where
  view_layout := 1
  mesh_layout := 2
  material2d_layout := 3
  vertex_shader := some 200
  fragment_shader := some 201
  mesh2d_specialize := fun _ _ => Except.ok wDescriptor
  material_specialize := fun d _ _ => Except.ok d

/-- The empty specialized-pipeline cache. -/
def wSMP0 : SpecializedMeshPipelines Unit where
  table := []
  next_id := 0

/-- A concrete material-2d key over the empty mesh key. -/
def wKey : Material2dKey Unit where
  mesh_key := {}
  bind_group_data := ()

/-- The cache after the first `wKey` specialization against `wPipeline` on
layout `9`. -/
def wSMP1 : SpecializedMeshPipelines Unit where
  table := [((9, wKey), 0)]
  next_id := 1

/-- A concrete prepared material, opaque, as stored in the render-material
cache under asset id `10`. -/
def wPrepared : PreparedMaterial2d Unit where
  bindings := []
  bind_group := 7
  key := ()
  properties :=
    { alpha_mode := AlphaMode2d.Opaque
      depth_bias := 1
      mesh_pipeline_key_bits := {} }

/-- A concrete prepared material with alpha mode `Blend`, stored under asset
id `11`. -/
def wPreparedBlend : PreparedMaterial2d Unit where
  bindings := []
  bind_group := 8
  key := ()
  properties :=
    { alpha_mode := AlphaMode2d.Blend
      depth_bias := 2
      mesh_pipeline_key_bits := { blendAlpha := true } }

/-- A concrete mesh instance for entity `0`. -/
def wMeshInstance : RenderMesh2dInstance where
  mesh_asset_id := 20
  transform_z := 3
  automatic_batching := true
  material_bind_group_id := none

/-- Material instance map: entity `0` uses material `10`, entity `1` uses
material `11`. -/
def wMaterialInstances : Nat → Option Nat :=
  fun e => if e = 0 then some 10 else if e = 1 then some 11 else none

/-- Mesh-instance table: entities `0` and `1` share `wMeshInstance`. -/
def wMeshInstances : Nat → Option RenderMesh2dInstance :=
  fun e => if e = 0 then some wMeshInstance
    else if e = 1 then some wMeshInstance else none

/-- Render-material cache holding `wPrepared` and `wPreparedBlend`. -/
def wMaterials : Nat → Option (PreparedMaterial2d Unit) :=
  fun i => if i = 10 then some wPrepared
    else if i = 11 then some wPreparedBlend else none

/-- A concrete GPU mesh under asset id `20`. -/
def wRenderMesh : RenderMesh where
  primitive_topology := 4
  layout := 9

/-- Mesh resource table holding `wRenderMesh`. -/
def wMeshes : Nat → Option RenderMesh :=
  fun m => if m = 20 then some wRenderMesh else none

/-- A concrete extraction query: entity `0` visible with material `10`,
entity `1` invisible with material `11`. -/
def wQuery : List (Nat × Bool × Nat) := [(0, true, 10), (1, false, 11)]

/-- A previous-frame instance map that still contains entity `1`. -/
def wPrev : Nat → Option Nat := fun e => if e = 1 then some 99 else none

/-- The material-2d key built by queuing for entity `0` against `wPrepared`
and `wRenderMesh` under the empty view key. -/
def wKeyMesh : Material2dKey Unit where
  mesh_key := (Mesh2dPipelineKey.NONE.or
    (Mesh2dPipelineKey.from_primitive_topology
      wRenderMesh.primitive_topology)).or
    wPrepared.properties.mesh_pipeline_key_bits
  bind_group_data := wPrepared.key

/-- The pipeline cache after specializing `wKeyMesh` against `wPipeline` on
`wRenderMesh`'s layout. -/
def wSMPC3 : SpecializedMeshPipelines Unit where
  table := [((wRenderMesh.layout, wKeyMesh), 0)]
  next_id := 1

/-! ## Shared lemmas -/

/-- If every descriptor the base specializer can return for this key carries
a fragment stage whenever a custom fragment shader is declared, then
`Material2dPipeline.specialize` cannot reach the `unwrap` panic. -/
theorem specialize_not_panicked {Data : Type} (p : Material2dPipeline Data)
    (key : Material2dKey Data) (layout : Nat)
    (hwf : ∀ d, p.mesh2d_specialize key.mesh_key layout = Except.ok d →
      p.fragment_shader.isSome → d.fragment.isSome) :
    p.specialize key layout ≠ SpecializeResult.panicked := by
  unfold Material2dPipeline.specialize
  cases hbase : p.mesh2d_specialize key.mesh_key layout with
  | error e => simp
  | ok d0 =>
    have hfrag := hwf d0 hbase
    cases hfs : p.fragment_shader with
    | none =>
      cases hv : p.vertex_shader <;>
        cases hd : d0.fragment <;>
        simp [hv, hd] <;>
        split <;> simp_all
    | some fs =>
      have hsome : d0.fragment.isSome := by simp [hfs] at hfrag; exact hfrag
      cases hd : d0.fragment with
      | none => rw [hd] at hsome; simp at hsome
      | some f =>
        cases hv : p.vertex_shader <;>
          simp [hv, hd] <;>
          split <;> simp_all

/-- Under the fragment-stage precondition, the cached specialization always
returns a value (no panic escapes the memo table). -/
theorem smp_specialize_total {Data : Type} [DecidableEq Data]
    (st : SpecializedMeshPipelines Data) (p : Material2dPipeline Data)
    (key : Material2dKey Data) (layout : Nat)
    (hwf : ∀ d, p.mesh2d_specialize key.mesh_key layout = Except.ok d →
      p.fragment_shader.isSome → d.fragment.isSome) :
    ∃ r, st.specialize p key layout = some r := by
  unfold SpecializedMeshPipelines.specialize
  cases lookupKey st.table (layout, key) with
  | some id => exact ⟨_, rfl⟩
  | none =>
    cases hs : p.specialize key layout with
    | panicked => exact absurd hs (specialize_not_panicked p key layout hwf)
    | err e => exact ⟨_, rfl⟩
    | ok d => exact ⟨_, rfl⟩

/-! ## Claim theorems -/

/-- C2: the view portion of the Pipeline Key built by
`queue_material2d_meshes` carries the in-shader-tonemapping flag (and the
tonemapping-method and dither flags) only when the view's HDR flag is false;
an HDR view with a tonemapping method set carries no in-shader-tonemapping
flag, while a non-HDR view with the same method does carry it (and records
the method). -/
theorem material2d_view_key_hdr_suppression :
    ∀ (samples : Nat) (tonemapping : Option Tonemapping)
      (dither : Option DebandDither),
      ((material2d_view_key true samples tonemapping dither).tonemapInShader
          = false ∧
        (material2d_view_key true samples tonemapping dither).tonemapMethod
          = none ∧
        (material2d_view_key true samples tonemapping dither).debandDither
          = false) ∧
      (∀ t : Tonemapping,
        (material2d_view_key false samples (some t) dither).tonemapInShader
            = true ∧
          (material2d_view_key false samples (some t) dither).tonemapMethod
            = some t) ∧
      (material2d_view_key false samples tonemapping
          (some DebandDither.Enabled)).debandDither = true := by
  intro samples tonemapping dither
  refine ⟨⟨?_, ?_, ?_⟩, ?_, ?_⟩
  · simp [material2d_view_key, Mesh2dPipelineKey.or,
      Mesh2dPipelineKey.from_msaa_samples, Mesh2dPipelineKey.from_hdr]
  · simp [material2d_view_key, Mesh2dPipelineKey.or,
      Mesh2dPipelineKey.from_msaa_samples, Mesh2dPipelineKey.from_hdr]
  · simp [material2d_view_key, Mesh2dPipelineKey.or,
      Mesh2dPipelineKey.from_msaa_samples, Mesh2dPipelineKey.from_hdr]
  · intro t
    rcases dither with _ | d
    · simp [material2d_view_key, Mesh2dPipelineKey.or,
        Mesh2dPipelineKey.from_msaa_samples, Mesh2dPipelineKey.from_hdr,
        Mesh2dPipelineKey.TONEMAP_IN_SHADER, tonemapping_pipeline_key]
    · cases d <;>
        simp [material2d_view_key, Mesh2dPipelineKey.or,
          Mesh2dPipelineKey.from_msaa_samples, Mesh2dPipelineKey.from_hdr,
          Mesh2dPipelineKey.TONEMAP_IN_SHADER,
          Mesh2dPipelineKey.DEBAND_DITHER, tonemapping_pipeline_key]
  · rcases tonemapping with _ | t <;>
      simp [material2d_view_key, Mesh2dPipelineKey.or,
        Mesh2dPipelineKey.from_msaa_samples, Mesh2dPipelineKey.from_hdr,
        Mesh2dPipelineKey.TONEMAP_IN_SHADER, Mesh2dPipelineKey.DEBAND_DITHER,
        tonemapping_pipeline_key]

/-- C5: whenever the binding resources are ready, `prepare_asset` succeeds
and yields a prepared material whose pipeline-key bits carry the blend-alpha
flag exactly when the material's alpha mode is `Blend` (and are empty for any
other mode), and whose properties carry exactly the material's alpha mode and
depth bias. -/
theorem prepare_asset_success_fields :
    ∀ {Ctx Data : Type} (material : SourceMaterial Ctx Data) (ctx : Ctx)
      (prepared : PreparedBindGroup Data),
      material.as_bind_group ctx = Except.ok prepared →
      ∃ pm : PreparedMaterial2d Data,
        prepare_asset material ctx = Except.ok pm ∧
        (pm.properties.mesh_pipeline_key_bits.blendAlpha = true ↔
          material.alpha_mode = AlphaMode2d.Blend) ∧
        (material.alpha_mode ≠ AlphaMode2d.Blend →
          pm.properties.mesh_pipeline_key_bits = Mesh2dPipelineKey.NONE) ∧
        pm.properties.alpha_mode = material.alpha_mode ∧
        pm.properties.depth_bias = material.depth_bias := by
  intro Ctx Data material ctx prepared h
  unfold prepare_asset
  rw [h]
  refine ⟨_, rfl, ?_, ?_, rfl, rfl⟩
  · cases halpha : material.alpha_mode <;>
      simp [halpha, Mesh2dPipelineKey.insert, Mesh2dPipelineKey.or,
        Mesh2dPipelineKey.empty, alpha_mode_pipeline_key,
        Mesh2dPipelineKey.BLEND_ALPHA, Mesh2dPipelineKey.NONE]
  · intro hne
    cases halpha : material.alpha_mode with
    | Opaque =>
      simp [halpha, Mesh2dPipelineKey.insert, Mesh2dPipelineKey.or,
        Mesh2dPipelineKey.empty, alpha_mode_pipeline_key,
        Mesh2dPipelineKey.NONE, Nat.lor]
    | Blend => exact absurd halpha hne

/-- Witness for C5 at the concrete Blend material `wMatBlend`. -/
theorem prepare_asset_success_fields_witness :
    wMatBlend.as_bind_group () =
        Except.ok { bindings := [], bind_group := 7, data := () } ∧
      ∃ pm : PreparedMaterial2d Unit,
        prepare_asset wMatBlend () = Except.ok pm ∧
        (pm.properties.mesh_pipeline_key_bits.blendAlpha = true ↔
          wMatBlend.alpha_mode = AlphaMode2d.Blend) ∧
        (wMatBlend.alpha_mode ≠ AlphaMode2d.Blend →
          pm.properties.mesh_pipeline_key_bits = Mesh2dPipelineKey.NONE) ∧
        pm.properties.alpha_mode = wMatBlend.alpha_mode ∧
        pm.properties.depth_bias = wMatBlend.depth_bias :=
  ⟨rfl, prepare_asset_success_fields wMatBlend ()
    { bindings := [], bind_group := 7, data := () } rfl⟩

/-- C6: `prepare_asset` returns the retry error exactly when the material's
bind-group construction reports retry-next-update; the error carries the
source material back unchanged, and the preparation step then writes no cache
entry and requeues the material. -/
theorem prepare_asset_retry_spec :
    ∀ {Ctx Data : Type} (material : SourceMaterial Ctx Data) (ctx : Ctx)
      (cache : Nat → Option (PreparedMaterial2d Data)) (id : Nat),
      (∀ m2 : SourceMaterial Ctx Data,
        prepare_asset material ctx =
            Except.error (PrepareAssetError.RetryNextUpdate m2) ↔
          (material.as_bind_group ctx =
              Except.error AsBindGroupError.RetryNextUpdate ∧ m2 = material)) ∧
      (material.as_bind_group ctx =
          Except.error AsBindGroupError.RetryNextUpdate →
        prepare_assets_step cache id material ctx = (cache, [material])) := by
  intro Ctx Data material ctx cache id
  constructor
  · intro m2
    unfold prepare_asset
    cases h : material.as_bind_group ctx with
    | ok prepared => simp
    | error e => cases e; simp [eq_comm]
  · intro h
    simp [prepare_assets_step, prepare_asset, h]

/-- Witness for C6 at the concrete retrying material `wMatRetry`. -/
theorem prepare_asset_retry_spec_witness :
    wMatRetry.as_bind_group () =
        Except.error AsBindGroupError.RetryNextUpdate ∧
      prepare_asset wMatRetry () =
        Except.error (PrepareAssetError.RetryNextUpdate wMatRetry) ∧
      prepare_assets_step wEmptyCache 0 wMatRetry () =
        (wEmptyCache, [wMatRetry]) :=
  ⟨rfl,
    ((prepare_asset_retry_spec wMatRetry () wEmptyCache 0).1 wMatRetry).mpr
      ⟨rfl, rfl⟩,
    (prepare_asset_retry_spec wMatRetry () wEmptyCache 0).2 rfl⟩

/-- C9: preparation is idempotent on its cache-relevant fields — two runs of
`prepare_asset` on the same source material with the same ready context yield
prepared materials with equal bind-group key data, alpha mode, depth bias and
pipeline-key bits. -/
theorem prepare_asset_idempotent :
    ∀ {Ctx Data : Type} (material : SourceMaterial Ctx Data) (ctx : Ctx)
      (prepared : PreparedBindGroup Data),
      material.as_bind_group ctx = Except.ok prepared →
      ∃ pm1 pm2 : PreparedMaterial2d Data,
        prepare_asset material ctx = Except.ok pm1 ∧
        prepare_asset material ctx = Except.ok pm2 ∧
        pm1.key = pm2.key ∧
        pm1.properties.alpha_mode = pm2.properties.alpha_mode ∧
        pm1.properties.depth_bias = pm2.properties.depth_bias ∧
        pm1.properties.mesh_pipeline_key_bits =
          pm2.properties.mesh_pipeline_key_bits := by
  intro Ctx Data material ctx prepared h
  unfold prepare_asset
  rw [h]
  exact ⟨_, _, rfl, rfl, rfl, rfl, rfl, rfl⟩

/-- Witness for C9 at the concrete Blend material `wMatBlend`. -/
theorem prepare_asset_idempotent_witness :
    wMatBlend.as_bind_group () =
        Except.ok { bindings := [], bind_group := 7, data := () } ∧
      ∃ pm1 pm2 : PreparedMaterial2d Unit,
        prepare_asset wMatBlend () = Except.ok pm1 ∧
        prepare_asset wMatBlend () = Except.ok pm2 ∧
        pm1.key = pm2.key ∧
        pm1.properties.alpha_mode = pm2.properties.alpha_mode ∧
        pm1.properties.depth_bias = pm2.properties.depth_bias ∧
        pm1.properties.mesh_pipeline_key_bits =
          pm2.properties.mesh_pipeline_key_bits :=
  ⟨rfl, prepare_asset_idempotent wMatBlend ()
    { bindings := [], bind_group := 7, data := () } rfl⟩

/-- C7: `Material2dPipeline::specialize` propagates any error of the base
mesh-2d specializer; otherwise (given the fragment stage needed by a declared
fragment shader) it hands the material's hook, invoked last, a descriptor
whose vertex/fragment shader stages are replaced only when the material
declared one, whose bind-group layout list is exactly view, mesh, material in
that order, and whose other state is untouched — and returns exactly what the
hook produces. -/
theorem material2d_pipeline_specialize_spec :
    ∀ {Data : Type} (p : Material2dPipeline Data) (key : Material2dKey Data)
      (layout : Nat),
      (∀ e, p.mesh2d_specialize key.mesh_key layout = Except.error e →
        p.specialize key layout = SpecializeResult.err e) ∧
      (∀ d0, p.mesh2d_specialize key.mesh_key layout = Except.ok d0 →
        (p.fragment_shader.isSome → d0.fragment.isSome) →
        ∃ dh : RenderPipelineDescriptor,
          dh.vertex.shader = (match p.vertex_shader with
            | some vs => vs
            | none => d0.vertex.shader) ∧
          dh.vertex.stageData = d0.vertex.stageData ∧
          (match p.fragment_shader with
            | some fs => ∃ f0, d0.fragment = some f0 ∧
                dh.fragment = some { f0 with shader := fs }
            | none => dh.fragment = d0.fragment) ∧
          dh.otherState = d0.otherState ∧
          dh.layout = [p.view_layout, p.mesh_layout, p.material2d_layout] ∧
          p.specialize key layout =
            (match p.material_specialize dh layout key with
              | Except.error e => SpecializeResult.err e
              | Except.ok d4 => SpecializeResult.ok d4)) := by
  intro Data p key layout
  constructor
  · intro e he
    unfold Material2dPipeline.specialize
    rw [he]
  · intro d0 h0 hfrag
    obtain ⟨dv, dfrag, dlay, dos⟩ := d0
    unfold Material2dPipeline.specialize
    rw [h0]
    cases hfs : p.fragment_shader with
    | none =>
      cases hv : p.vertex_shader with
      | none =>
        exact ⟨{ vertex := dv,
                 fragment := dfrag,
                 layout := [p.view_layout, p.mesh_layout, p.material2d_layout],
                 otherState := dos },
          rfl, rfl, rfl, rfl, rfl, rfl⟩
      | some v =>
        exact ⟨{ vertex := { shader := v, stageData := dv.stageData },
                 fragment := dfrag,
                 layout := [p.view_layout, p.mesh_layout, p.material2d_layout],
                 otherState := dos },
          rfl, rfl, rfl, rfl, rfl, rfl⟩
    | some fs =>
      rw [hfs] at hfrag
      cases dfrag with
      | none => simp at hfrag
      | some f1 =>
        cases hv : p.vertex_shader with
        | none =>
          exact ⟨{ vertex := dv,
                   fragment := some { shader := fs, stageData := f1.stageData },
                   layout := [p.view_layout, p.mesh_layout,
                     p.material2d_layout],
                   otherState := dos },
            rfl, rfl, ⟨f1, rfl, rfl⟩, rfl, rfl, rfl⟩
        | some v =>
          exact ⟨{ vertex := { shader := v, stageData := dv.stageData },
                   fragment := some { shader := fs, stageData := f1.stageData },
                   layout := [p.view_layout, p.mesh_layout,
                     p.material2d_layout],
                   otherState := dos },
            rfl, rfl, ⟨f1, rfl, rfl⟩, rfl, rfl, rfl⟩

/-- Witness for C7 at the concrete pipeline `wPipelineFrag`, which declares
vertex shader `200` and fragment shader `201` over base descriptor
`wDescriptor`. -/
theorem material2d_pipeline_specialize_spec_witness :
    wPipelineFrag.mesh2d_specialize wKey.mesh_key 9 = Except.ok wDescriptor ∧
    ∃ dh : RenderPipelineDescriptor,
      dh.vertex.shader = 200 ∧
      dh.vertex.stageData = wDescriptor.vertex.stageData ∧
      (∃ f0, wDescriptor.fragment = some f0 ∧
        dh.fragment = some { f0 with shader := 201 }) ∧
      dh.otherState = wDescriptor.otherState ∧
      dh.layout = [wPipelineFrag.view_layout, wPipelineFrag.mesh_layout,
        wPipelineFrag.material2d_layout] ∧
      wPipelineFrag.specialize wKey 9 =
        (match wPipelineFrag.material_specialize dh 9 wKey with
          | Except.error e => SpecializeResult.err e
          | Except.ok d4 => SpecializeResult.ok d4) :=
  ⟨rfl, (material2d_pipeline_specialize_spec wPipelineFrag wKey 9).2
    wDescriptor rfl (by decide)⟩

/-- C10: `Material2dPipeline::specialize` is panic-free for every key and
layout exactly under the unstated precondition that the base specializer's
descriptors carry a fragment stage whenever a custom fragment shader is
declared; without it the fragment `unwrap` can panic. -/
theorem material2d_pipeline_specialize_unwrap_safety :
    (∀ {Data : Type} (p : Material2dPipeline Data) (key : Material2dKey Data)
      (layout : Nat),
      (∀ d, p.mesh2d_specialize key.mesh_key layout = Except.ok d →
        p.fragment_shader.isSome → d.fragment.isSome) →
      p.specialize key layout ≠ SpecializeResult.panicked) ∧
    (∃ (p : Material2dPipeline Unit) (key : Material2dKey Unit)
      (layout : Nat),
      p.fragment_shader.isSome ∧
      p.specialize key layout = SpecializeResult.panicked) := by
  constructor
  · intro Data p key layout hwf
    exact specialize_not_panicked p key layout hwf
  · refine ⟨{ view_layout := 1,
              mesh_layout := 2,
              material2d_layout := 3,
              vertex_shader := none,
              fragment_shader := some 201,
              mesh2d_specialize := fun _ _ => Except.ok
                { vertex := { shader := 100 }, fragment := none,
                  layout := [] },
              material_specialize := fun d _ _ => Except.ok d },
      wKey, 9, rfl, rfl⟩

/-- Witness for C10 at the concrete pipeline `wPipelineFrag`, whose base
specializer always returns `wDescriptor`, which has a fragment stage. -/
theorem material2d_pipeline_specialize_unwrap_safety_witness :
    Material2dPipeline.specialize wPipelineFrag wKey 9 ≠
      SpecializeResult.panicked :=
  material2d_pipeline_specialize_unwrap_safety.1 wPipelineFrag wKey 9
    (by intro d h; injection h with h2; subst h2; decide)

/-- C8: the pipeline cache memoizes — when a specialization request returns a
pipeline handle, repeating the request with unchanged inputs returns the same
handle with the cache unchanged and without running the specialization
computation (so the material's hook is not re-invoked). -/
theorem specialized_mesh_pipelines_memo :
    ∀ {Data : Type} [DecidableEq Data]
      (st : SpecializedMeshPipelines Data) (p : Material2dPipeline Data)
      (key : Material2dKey Data) (layout : Nat) (id : Nat)
      (st2 : SpecializedMeshPipelines Data) (b : Bool),
      st.specialize p key layout = some (Except.ok id, st2, b) →
      st2.specialize p key layout = some (Except.ok id, st2, false) := by
  intro Data _inst st p key layout id st2 b h
  unfold SpecializedMeshPipelines.specialize at h ⊢
  cases hl : lookupKey st.table (layout, key) with
  | some v =>
    rw [hl] at h
    simp only [Option.some.injEq, Prod.mk.injEq] at h
    obtain ⟨h1, h2, h3⟩ := h
    injection h1 with h4
    subst h2
    subst h4
    rw [hl]
  | none =>
    rw [hl] at h
    cases hs : p.specialize key layout with
    | panicked => rw [hs] at h; exact absurd h (by simp)
    | err e => rw [hs] at h; simp at h
    | ok d =>
      rw [hs] at h
      simp only [Option.some.injEq, Prod.mk.injEq] at h
      obtain ⟨h1, h2, h3⟩ := h
      injection h1 with h4
      subst h2
      subst h4
      simp [lookupKey]

/-- Witness for C8: the first request against the empty cache compiles
pipeline `0` and the repeated request returns the same handle without
recomputation. -/
theorem specialized_mesh_pipelines_memo_witness :
    wSMP0.specialize wPipeline wKey 9 = some (Except.ok 0, wSMP1, true) ∧
    wSMP1.specialize wPipeline wKey 9 = some (Except.ok 0, wSMP1, false) :=
  ⟨rfl,
    specialized_mesh_pipelines_memo wSMP0 wPipeline wKey 9 0 wSMP1 true rfl⟩

/-- Characterization of the extraction fold: under distinct query entities,
the built map sends `e` to `a` exactly when the query lists `e` visible with
material `a`, or the accumulator already did and the query never lists `e`
visible. -/
theorem extract_foldl_spec :
    ∀ (query : List (Nat × Bool × Nat)) (m : Nat → Option Nat) (e a : Nat),
      (query.map Prod.fst).Nodup →
      (List.foldl extractStep m query e = some a ↔
        ((e, true, a) ∈ query ∨
          (m e = some a ∧ ∀ h, (e, true, h) ∉ query))) := by
  intro query
  induction query with
  | nil =>
    intro m e a _
    simp
  | cons q rest ih =>
    obtain ⟨k, vis, h0⟩ := q
    intro m e a hnd
    rw [List.map_cons, List.nodup_cons] at hnd
    obtain ⟨hk, hnd2⟩ := hnd
    have hnotin : ∀ h : Nat, (k, true, h) ∉ rest := by
      intro h hmem
      exact hk (by simpa using List.mem_map_of_mem Prod.fst hmem)
    rw [List.foldl_cons, ih _ e a hnd2]
    by_cases hek : e = k
    · subst hek
      cases vis with
      | true =>
        constructor
        · rintro (hin | ⟨hstep, -⟩)
          · exact absurd hin (hnotin a)
          · simp [extractStep, updateFn] at hstep
            subst hstep
            exact Or.inl (List.mem_cons_self _ _)
        · rintro (hin | ⟨hm, hnot⟩)
          · rcases List.mem_cons.mp hin with heq | hin2
            · simp only [Prod.mk.injEq] at heq
              obtain ⟨-, -, ha⟩ := heq
              right
              refine ⟨?_, hnotin⟩
              simp [extractStep, updateFn, ha]
            · exact absurd hin2 (hnotin a)
          · exact absurd (List.mem_cons_self _ _) (hnot h0)
      | false =>
        constructor
        · rintro (hin | ⟨hstep, -⟩)
          · exact absurd hin (hnotin a)
          · right
            constructor
            · simpa [extractStep, updateFn] using hstep
            · intro h
              simp only [List.mem_cons, not_or]
              exact ⟨by simp, hnotin h⟩
        · rintro (hin | ⟨hm, hnot⟩)
          · rcases List.mem_cons.mp hin with heq | hin2
            · simp at heq
            · exact absurd hin2 (hnotin a)
          · right
            refine ⟨by simpa [extractStep, updateFn] using hm, ?_⟩
            intro h hmem
            exact hnot h (List.mem_cons_of_mem _ hmem)
    · have hstep_eq : extractStep m (k, vis, h0) e = m e := by
        cases vis <;> simp [extractStep, updateFn, hek]
      rw [hstep_eq]
      constructor
      · rintro (hin | ⟨hm, hnot⟩)
        · exact Or.inl (List.mem_cons_of_mem _ hin)
        · right
          refine ⟨hm, ?_⟩
          intro h
          simp only [List.mem_cons, not_or]
          exact ⟨by simp [Prod.mk.injEq, hek], hnot h⟩
      · rintro (hin | ⟨hm, hnot⟩)
        · rcases List.mem_cons.mp hin with heq | hin2
          · exact absurd (by simpa using congrArg Prod.fst heq) hek
          · exact Or.inl hin2
        · exact Or.inr ⟨hm, fun h hmem => hnot h (List.mem_cons_of_mem _ hmem)⟩

/-- C4: after extraction the instance map contains exactly the queried
entities whose view-visibility flag is true, each mapped to its material's
asset id; an entity never listed visible is absent; and the result is
independent of the previous frame's map, which is cleared first. -/
theorem extract_material_meshes_2d_spec :
    ∀ (prev : Nat → Option Nat) (query : List (Nat × Bool × Nat)) (e a : Nat),
      (query.map Prod.fst).Nodup →
      ((extract_material_meshes_2d prev query e = some a ↔
          (e, true, a) ∈ query) ∧
        ((∀ h, (e, true, h) ∉ query) →
          extract_material_meshes_2d prev query e = none) ∧
        extract_material_meshes_2d prev query =
          extract_material_meshes_2d (fun _ => none) query) := by
  intro prev query e a hnd
  refine ⟨?_, ?_, rfl⟩
  · simp only [extract_material_meshes_2d]
    rw [extract_foldl_spec query _ e a hnd]
    simp
  · intro hnone
    simp only [extract_material_meshes_2d]
    cases hres : List.foldl extractStep (fun _ => none) query e with
    | none => rfl
    | some b =>
      exfalso
      have hb := (extract_foldl_spec query (fun _ => none) e b hnd).mp hres
      rcases hb with hin | ⟨hm, -⟩
      · exact hnone b hin
      · exact Option.noConfusion hm

/-- Witness for C4 at the concrete query `wQuery` (entity `0` visible, entity
`1` invisible) and previous-frame map `wPrev`, which still contained entity
`1`. -/
theorem extract_material_meshes_2d_spec_witness :
    (wQuery.map Prod.fst).Nodup ∧
    (extract_material_meshes_2d wPrev wQuery 1 = some 11 ↔
      (1, true, 11) ∈ wQuery) ∧
    ((∀ h, (1, true, h) ∉ wQuery) →
      extract_material_meshes_2d wPrev wQuery 1 = none) ∧
    extract_material_meshes_2d wPrev wQuery =
      extract_material_meshes_2d (fun _ => none) wQuery :=
  ⟨by decide, extract_material_meshes_2d_spec wPrev wQuery 1 11 (by decide)⟩

/-- C3: for an entity passing every skip condition, dispatch is decided by
the prepared material's alpha mode — `Opaque` adds an opaque bin key
(pipeline, opaque draw function, mesh asset id, material bind-group id) with
the mesh instance's automatic-batching classification, and `Blend` appends a
transparent sort item whose sort key is the mesh instance's transform `z`
translation plus the material's depth bias; in both cases the mesh instance's
cached bind-group id is updated. -/
theorem queue_material2d_entity_dispatch :
    ∀ {Data : Type} [DecidableEq Data]
      (p : Material2dPipeline Data)
      (render_meshes : Nat → Option RenderMesh)
      (render_materials : Nat → Option (PreparedMaterial2d Data))
      (render_material_instances : Nat → Option Nat)
      (draw_opaque_2d draw_transparent_2d : Nat)
      (view_key : Mesh2dPipelineKey)
      (pipelines : SpecializedMeshPipelines Data)
      (render_mesh_instances : Nat → Option RenderMesh2dInstance)
      (e mid : Nat) (mi : RenderMesh2dInstance)
      (mat : PreparedMaterial2d Data) (mesh : RenderMesh)
      (pid : Nat) (pipelines2 : SpecializedMeshPipelines Data) (b : Bool),
      render_material_instances e = some mid →
      render_mesh_instances e = some mi →
      render_materials mid = some mat →
      render_meshes mi.mesh_asset_id = some mesh →
      pipelines.specialize p
        { mesh_key := (view_key.or (Mesh2dPipelineKey.from_primitive_topology
              mesh.primitive_topology)).or
            mat.properties.mesh_pipeline_key_bits,
          bind_group_data := mat.key } mesh.layout
        = some (Except.ok pid, pipelines2, b) →
      ((mat.properties.alpha_mode = AlphaMode2d.Opaque →
        queue_material2d_entity p render_meshes render_materials
          render_material_instances draw_opaque_2d draw_transparent_2d
          view_key pipelines render_mesh_instances e =
          some (QueueAction.opaque2d
            { pipeline := pid,
              draw_function := draw_opaque_2d,
              asset_id := mi.mesh_asset_id,
              material_bind_group_id := some mat.bind_group }
            e (BinnedRenderPhaseType.mesh mi.automatic_batching),
            pipelines2,
            updateFn render_mesh_instances e
              { mi with material_bind_group_id := some mat.bind_group })) ∧
        (mat.properties.alpha_mode = AlphaMode2d.Blend →
          queue_material2d_entity p render_meshes render_materials
            render_material_instances draw_opaque_2d draw_transparent_2d
            view_key pipelines render_mesh_instances e =
            some (QueueAction.transparent2d
              { entity := e,
                draw_function := draw_transparent_2d,
                pipeline := pid,
                sort_key := mi.transform_z + mat.properties.depth_bias,
                batch_range_start := 0,
                batch_range_end := 1,
                extra_index := none },
              pipelines2,
              updateFn render_mesh_instances e
                { mi with material_bind_group_id := some mat.bind_group }))) := by
  intro Data _inst p render_meshes render_materials render_material_instances
    draw_opaque_2d draw_transparent_2d view_key pipelines
    render_mesh_instances e mid mi mat mesh pid pipelines2 b h1 h2 h3 h4 h5
  constructor
  · intro halpha
    simp only [queue_material2d_entity, h1, h2, h3, h4, h5, halpha]
  · intro halpha
    simp only [queue_material2d_entity, h1, h2, h3, h4, h5, halpha]

/-- Witness for C3 at entity `0` with the concrete tables: material `10`
(`wPrepared`, opaque, bound at group `7`), mesh instance `wMeshInstance`
(mesh `20`, transform z `3`), mesh `wRenderMesh`, empty view key, draw
functions `30` (opaque) and `31` (transparent). -/
theorem queue_material2d_entity_dispatch_witness :
    wMaterialInstances 0 = some 10 ∧
    wMeshInstances 0 = some wMeshInstance ∧
    wMaterials 10 = some wPrepared ∧
    wMeshes wMeshInstance.mesh_asset_id = some wRenderMesh ∧
    wSMP0.specialize wPipeline
      { mesh_key := (Mesh2dPipelineKey.NONE.or
          (Mesh2dPipelineKey.from_primitive_topology
            wRenderMesh.primitive_topology)).or
          wPrepared.properties.mesh_pipeline_key_bits,
        bind_group_data := wPrepared.key } wRenderMesh.layout
      = some (Except.ok 0, wSMPC3, true) ∧
    ((wPrepared.properties.alpha_mode = AlphaMode2d.Opaque →
      queue_material2d_entity wPipeline wMeshes wMaterials wMaterialInstances
        30 31 Mesh2dPipelineKey.NONE wSMP0 wMeshInstances 0 =
        some (QueueAction.opaque2d
          { pipeline := 0,
            draw_function := 30,
            asset_id := wMeshInstance.mesh_asset_id,
            material_bind_group_id := some wPrepared.bind_group }
          0 (BinnedRenderPhaseType.mesh wMeshInstance.automatic_batching),
          wSMPC3,
          updateFn wMeshInstances 0
            { wMeshInstance with
              material_bind_group_id := some wPrepared.bind_group })) ∧
      (wPrepared.properties.alpha_mode = AlphaMode2d.Blend →
        queue_material2d_entity wPipeline wMeshes wMaterials
          wMaterialInstances 30 31 Mesh2dPipelineKey.NONE wSMP0
          wMeshInstances 0 =
          some (QueueAction.transparent2d
            { entity := 0,
              draw_function := 31,
              pipeline := 0,
              sort_key := wMeshInstance.transform_z +
                wPrepared.properties.depth_bias,
              batch_range_start := 0,
              batch_range_end := 1,
              extra_index := none },
            wSMPC3,
            updateFn wMeshInstances 0
              { wMeshInstance with
                material_bind_group_id := some wPrepared.bind_group }))) :=
  ⟨rfl, rfl, rfl, rfl, rfl,
    queue_material2d_entity_dispatch wPipeline wMeshes wMaterials
      wMaterialInstances 30 31 Mesh2dPipelineKey.NONE wSMP0 wMeshInstances
      0 10 wMeshInstance wPrepared wRenderMesh 0 wSMPC3 true
      rfl rfl rfl rfl rfl⟩

/-- On a specialization error the memo table returns its state unchanged:
nothing is inserted and no pipeline id is consumed. -/
theorem smp_specialize_error_state {Data : Type} [DecidableEq Data]
    (st : SpecializedMeshPipelines Data) (p : Material2dPipeline Data)
    (key : Material2dKey Data) (layout : Nat) (err : Nat)
    (st3 : SpecializedMeshPipelines Data) (b3 : Bool) :
    st.specialize p key layout = some (Except.error err, st3, b3) →
    st3 = st := by
  unfold SpecializedMeshPipelines.specialize
  cases hl : lookupKey st.table (layout, key) with
  | some v => intro h; exact absurd h (by simp)
  | none =>
    cases hs : p.specialize key layout with
    | panicked => intro h; exact absurd h (by simp)
    | err e2 =>
      intro h
      simp only [Option.some.injEq, Prod.mk.injEq] at h
      exact h.2.1.symm
    | ok d => intro h; exact absurd h (by simp)

/-- C1: for every visible entity the queuing loop body takes exactly one of
three outcomes — skip, an opaque-bin add for that entity, or a transparent
append for that entity; it skips exactly when the entity is absent from the
material instance map, absent from the mesh-instance table, its prepared
material or its GPU mesh is unavailable, or cached specialization returns an
error (which is logged, an unmodeled side effect); and a skip leaves the
pipeline cache, the mesh-instance table and both phase containers untouched,
so processing of the remaining entities is unaffected, while a non-skip adds
its one item to exactly one phase container. -/
theorem queue_material2d_entity_partition :
    ∀ {Data : Type} [DecidableEq Data]
      (p : Material2dPipeline Data)
      (render_meshes : Nat → Option RenderMesh)
      (render_materials : Nat → Option (PreparedMaterial2d Data))
      (render_material_instances : Nat → Option Nat)
      (draw_opaque_2d draw_transparent_2d : Nat)
      (view_key : Mesh2dPipelineKey)
      (pipelines : SpecializedMeshPipelines Data)
      (render_mesh_instances : Nat → Option RenderMesh2dInstance)
      (e : Nat),
      (∀ (key : Material2dKey Data) (layout : Nat)
        (d : RenderPipelineDescriptor),
        p.mesh2d_specialize key.mesh_key layout = Except.ok d →
        p.fragment_shader.isSome → d.fragment.isSome) →
      ∃ (act : QueueAction) (pipelines2 : SpecializedMeshPipelines Data)
        (rmi2 : Nat → Option RenderMesh2dInstance),
        queue_material2d_entity p render_meshes render_materials
          render_material_instances draw_opaque_2d draw_transparent_2d
          view_key pipelines render_mesh_instances e
          = some (act, pipelines2, rmi2) ∧
        (act = QueueAction.skip ∨
          (∃ bk pt, act = QueueAction.opaque2d bk e pt) ∨
          (∃ item, act = QueueAction.transparent2d item ∧
            item.entity = e)) ∧
        (act = QueueAction.skip ↔
          (render_material_instances e = none ∨
            render_mesh_instances e = none ∨
            (∃ mid, render_material_instances e = some mid ∧
              render_materials mid = none) ∨
            (∃ mid mi mat, render_material_instances e = some mid ∧
              render_mesh_instances e = some mi ∧
              render_materials mid = some mat ∧
              render_meshes mi.mesh_asset_id = none) ∨
            (∃ mid mi mat mesh err st4 b4,
              render_material_instances e = some mid ∧
              render_mesh_instances e = some mi ∧
              render_materials mid = some mat ∧
              render_meshes mi.mesh_asset_id = some mesh ∧
              pipelines.specialize p
                { mesh_key := (view_key.or
                    (Mesh2dPipelineKey.from_primitive_topology
                      mesh.primitive_topology)).or
                    mat.properties.mesh_pipeline_key_bits,
                  bind_group_data := mat.key } mesh.layout
                = some (Except.error err, st4, b4)))) ∧
        (act = QueueAction.skip →
          pipelines2 = pipelines ∧ rmi2 = render_mesh_instances ∧
          (∀ (rest : List Nat)
            (op : List (Opaque2dBinKey × Nat × BinnedRenderPhaseType))
            (tp : List Transparent2d),
            queue_material2d_view p render_meshes render_materials
              render_material_instances draw_opaque_2d draw_transparent_2d
              view_key (e :: rest) pipelines render_mesh_instances op tp =
            queue_material2d_view p render_meshes render_materials
              render_material_instances draw_opaque_2d draw_transparent_2d
              view_key rest pipelines render_mesh_instances op tp)) ∧
        (∀ bk ent pt, act = QueueAction.opaque2d bk ent pt →
          ∀ (rest : List Nat)
            (op : List (Opaque2dBinKey × Nat × BinnedRenderPhaseType))
            (tp : List Transparent2d),
            queue_material2d_view p render_meshes render_materials
              render_material_instances draw_opaque_2d draw_transparent_2d
              view_key (e :: rest) pipelines render_mesh_instances op tp =
            queue_material2d_view p render_meshes render_materials
              render_material_instances draw_opaque_2d draw_transparent_2d
              view_key rest pipelines2 rmi2 (op ++ [(bk, ent, pt)]) tp) ∧
        (∀ item, act = QueueAction.transparent2d item →
          ∀ (rest : List Nat)
            (op : List (Opaque2dBinKey × Nat × BinnedRenderPhaseType))
            (tp : List Transparent2d),
            queue_material2d_view p render_meshes render_materials
              render_material_instances draw_opaque_2d draw_transparent_2d
              view_key (e :: rest) pipelines render_mesh_instances op tp =
            queue_material2d_view p render_meshes render_materials
              render_material_instances draw_opaque_2d draw_transparent_2d
              view_key rest pipelines2 rmi2 op (tp ++ [item])) := by
  intro Data _inst p render_meshes render_materials render_material_instances
    draw_opaque_2d draw_transparent_2d view_key pipelines
    render_mesh_instances e hwf
  cases h1 : render_material_instances e with
  | none =>
    refine ⟨QueueAction.skip, pipelines, render_mesh_instances,
      by simp only [queue_material2d_entity, h1], Or.inl rfl,
      ⟨fun _ => Or.inl rfl, fun _ => rfl⟩, ?_, ?_, ?_⟩
    · intro _
      refine ⟨rfl, rfl, fun rest op tp => ?_⟩
      simp only [queue_material2d_view, queue_material2d_entity, h1]
    · intro bk ent pt hact; exact QueueAction.noConfusion hact
    · intro item hact; exact QueueAction.noConfusion hact
  | some mid =>
    cases h2 : render_mesh_instances e with
    | none =>
      refine ⟨QueueAction.skip, pipelines, render_mesh_instances,
        by simp only [queue_material2d_entity, h1, h2], Or.inl rfl,
        ⟨fun _ => Or.inr (Or.inl rfl), fun _ => rfl⟩, ?_, ?_, ?_⟩
      · intro _
        refine ⟨rfl, rfl, fun rest op tp => ?_⟩
        simp only [queue_material2d_view, queue_material2d_entity, h1, h2]
      · intro bk ent pt hact; exact QueueAction.noConfusion hact
      · intro item hact; exact QueueAction.noConfusion hact
    | some mi =>
      cases h3 : render_materials mid with
      | none =>
        refine ⟨QueueAction.skip, pipelines, render_mesh_instances,
          by simp only [queue_material2d_entity, h1, h2, h3], Or.inl rfl,
          ⟨fun _ => Or.inr (Or.inr (Or.inl ⟨mid, rfl, h3⟩)), fun _ => rfl⟩,
          ?_, ?_, ?_⟩
        · intro _
          refine ⟨rfl, rfl, fun rest op tp => ?_⟩
          simp only [queue_material2d_view, queue_material2d_entity,
            h1, h2, h3]
        · intro bk ent pt hact; exact QueueAction.noConfusion hact
        · intro item hact; exact QueueAction.noConfusion hact
      | some mat =>
        cases h4 : render_meshes mi.mesh_asset_id with
        | none =>
          refine ⟨QueueAction.skip, pipelines, render_mesh_instances,
            by simp only [queue_material2d_entity, h1, h2, h3, h4],
            Or.inl rfl,
            ⟨fun _ => Or.inr (Or.inr (Or.inr (Or.inl
              ⟨mid, mi, mat, rfl, rfl, h3, h4⟩))), fun _ => rfl⟩,
            ?_, ?_, ?_⟩
          · intro _
            refine ⟨rfl, rfl, fun rest op tp => ?_⟩
            simp only [queue_material2d_view, queue_material2d_entity,
              h1, h2, h3, h4]
          · intro bk ent pt hact; exact QueueAction.noConfusion hact
          · intro item hact; exact QueueAction.noConfusion hact
        | some mesh =>
          obtain ⟨⟨res, st3, b3⟩, hr⟩ := smp_specialize_total pipelines p
            { mesh_key := (view_key.or
                (Mesh2dPipelineKey.from_primitive_topology
                  mesh.primitive_topology)).or
                mat.properties.mesh_pipeline_key_bits,
              bind_group_data := mat.key } mesh.layout
            (hwf _ mesh.layout)
          cases res with
          | error err =>
            have hst : st3 = pipelines :=
              smp_specialize_error_state _ _ _ _ _ _ _ hr
            rw [hst] at hr
            refine ⟨QueueAction.skip, pipelines, render_mesh_instances,
              by simp only [queue_material2d_entity, h1, h2, h3, h4, hr],
              Or.inl rfl,
              ⟨fun _ => Or.inr (Or.inr (Or.inr (Or.inr
                ⟨mid, mi, mat, mesh, err, pipelines, b3,
                  rfl, rfl, h3, h4, hr⟩))), fun _ => rfl⟩,
              ?_, ?_, ?_⟩
            · intro _
              refine ⟨rfl, rfl, fun rest op tp => ?_⟩
              simp only [queue_material2d_view, queue_material2d_entity,
                h1, h2, h3, h4, hr]
            · intro bk ent pt hact; exact QueueAction.noConfusion hact
            · intro item hact; exact QueueAction.noConfusion hact
          | ok pid =>
            cases halpha : mat.properties.alpha_mode with
            | Opaque =>
              have hq : queue_material2d_entity p render_meshes
                  render_materials render_material_instances draw_opaque_2d
                  draw_transparent_2d view_key pipelines
                  render_mesh_instances e =
                  some (QueueAction.opaque2d
                    { pipeline := pid,
                      draw_function := draw_opaque_2d,
                      asset_id := mi.mesh_asset_id,
                      material_bind_group_id := some mat.bind_group }
                    e (BinnedRenderPhaseType.mesh mi.automatic_batching),
                    st3,
                    updateFn render_mesh_instances e
                      { mi with
                        material_bind_group_id := some mat.bind_group }) := by
                simp only [queue_material2d_entity, h1, h2, h3, h4, hr,
                  halpha]
              refine ⟨QueueAction.opaque2d
                  { pipeline := pid,
                    draw_function := draw_opaque_2d,
                    asset_id := mi.mesh_asset_id,
                    material_bind_group_id := some mat.bind_group }
                  e (BinnedRenderPhaseType.mesh mi.automatic_batching),
                st3,
                updateFn render_mesh_instances e
                  { mi with material_bind_group_id := some mat.bind_group },
                hq, Or.inr (Or.inl ⟨_, _, rfl⟩), ?_, ?_, ?_, ?_⟩
              · constructor
                · intro hact; exact QueueAction.noConfusion hact
                · rintro (hc | hc | ⟨mid2, hc1, hc2⟩ |
                    ⟨mid2, mi2, mat2, hc1, hc2, hc3, hc4⟩ |
                    ⟨mid2, mi2, mat2, mesh2, err2, st4, b4,
                      hc1, hc2, hc3, hc4, hc5⟩)
                  · exact Option.noConfusion hc
                  · exact Option.noConfusion hc
                  · injection hc1 with hm; subst hm
                    rw [h3] at hc2; exact Option.noConfusion hc2
                  · injection hc1 with hm; subst hm
                    injection hc2 with hm2; subst hm2
                    rw [h3] at hc3; injection hc3 with hm3; subst hm3
                    rw [h4] at hc4; exact Option.noConfusion hc4
                  · injection hc1 with hm; subst hm
                    injection hc2 with hm2; subst hm2
                    rw [h3] at hc3; injection hc3 with hm3; subst hm3
                    rw [h4] at hc4; injection hc4 with hm4; subst hm4
                    rw [hr] at hc5
                    simp at hc5
              · intro hact; exact QueueAction.noConfusion hact
              · intro bk ent pt hact rest op tp
                injection hact with hbk hent hpt
                subst hbk; subst hent; subst hpt
                simp only [queue_material2d_view, hq]
              · intro item hact; exact QueueAction.noConfusion hact
            | Blend =>
              have hq : queue_material2d_entity p render_meshes
                  render_materials render_material_instances draw_opaque_2d
                  draw_transparent_2d view_key pipelines
                  render_mesh_instances e =
                  some (QueueAction.transparent2d
                    { entity := e,
                      draw_function := draw_transparent_2d,
                      pipeline := pid,
                      sort_key := mi.transform_z +
                        mat.properties.depth_bias,
                      batch_range_start := 0,
                      batch_range_end := 1,
                      extra_index := none },
                    st3,
                    updateFn render_mesh_instances e
                      { mi with
                        material_bind_group_id := some mat.bind_group }) := by
                simp only [queue_material2d_entity, h1, h2, h3, h4, hr,
                  halpha]
              refine ⟨QueueAction.transparent2d
                  { entity := e,
                    draw_function := draw_transparent_2d,
                    pipeline := pid,
                    sort_key := mi.transform_z + mat.properties.depth_bias,
                    batch_range_start := 0,
                    batch_range_end := 1,
                    extra_index := none },
                st3,
                updateFn render_mesh_instances e
                  { mi with material_bind_group_id := some mat.bind_group },
                hq, Or.inr (Or.inr ⟨_, rfl, rfl⟩), ?_, ?_, ?_, ?_⟩
              · constructor
                · intro hact; exact QueueAction.noConfusion hact
                · rintro (hc | hc | ⟨mid2, hc1, hc2⟩ |
                    ⟨mid2, mi2, mat2, hc1, hc2, hc3, hc4⟩ |
                    ⟨mid2, mi2, mat2, mesh2, err2, st4, b4,
                      hc1, hc2, hc3, hc4, hc5⟩)
                  · exact Option.noConfusion hc
                  · exact Option.noConfusion hc
                  · injection hc1 with hm; subst hm
                    rw [h3] at hc2; exact Option.noConfusion hc2
                  · injection hc1 with hm; subst hm
                    injection hc2 with hm2; subst hm2
                    rw [h3] at hc3; injection hc3 with hm3; subst hm3
                    rw [h4] at hc4; exact Option.noConfusion hc4
                  · injection hc1 with hm; subst hm
                    injection hc2 with hm2; subst hm2
                    rw [h3] at hc3; injection hc3 with hm3; subst hm3
                    rw [h4] at hc4; injection hc4 with hm4; subst hm4
                    rw [hr] at hc5
                    simp at hc5
              · intro hact; exact QueueAction.noConfusion hact
              · intro bk ent pt hact; exact QueueAction.noConfusion hact
              · intro item hact rest op tp
                injection hact with hitem
                subst hitem
                simp only [queue_material2d_view, hq]

/-- Witness for C1 at entity `0` with the concrete tables (`wPipeline`
declares no custom fragment shader, so the fragment-stage precondition is
vacuous). -/
theorem queue_material2d_entity_partition_witness :
    ∃ (act : QueueAction) (pipelines2 : SpecializedMeshPipelines Unit)
      (rmi2 : Nat → Option RenderMesh2dInstance),
      queue_material2d_entity wPipeline wMeshes wMaterials
        wMaterialInstances 30 31 Mesh2dPipelineKey.NONE wSMP0
        wMeshInstances 0
        = some (act, pipelines2, rmi2) ∧
      (act = QueueAction.skip ∨
        (∃ bk pt, act = QueueAction.opaque2d bk 0 pt) ∨
        (∃ item, act = QueueAction.transparent2d item ∧
          item.entity = 0)) ∧
      (act = QueueAction.skip ↔
        (wMaterialInstances 0 = none ∨
          wMeshInstances 0 = none ∨
          (∃ mid, wMaterialInstances 0 = some mid ∧
            wMaterials mid = none) ∨
          (∃ mid mi mat, wMaterialInstances 0 = some mid ∧
            wMeshInstances 0 = some mi ∧
            wMaterials mid = some mat ∧
            wMeshes mi.mesh_asset_id = none) ∨
          (∃ mid mi mat mesh err st4 b4,
            wMaterialInstances 0 = some mid ∧
            wMeshInstances 0 = some mi ∧
            wMaterials mid = some mat ∧
            wMeshes mi.mesh_asset_id = some mesh ∧
            wSMP0.specialize wPipeline
              { mesh_key := (Mesh2dPipelineKey.NONE.or
                  (Mesh2dPipelineKey.from_primitive_topology
                    mesh.primitive_topology)).or
                  mat.properties.mesh_pipeline_key_bits,
                bind_group_data := mat.key } mesh.layout
              = some (Except.error err, st4, b4)))) ∧
      (act = QueueAction.skip →
        pipelines2 = wSMP0 ∧ rmi2 = wMeshInstances ∧
        (∀ (rest : List Nat)
          (op : List (Opaque2dBinKey × Nat × BinnedRenderPhaseType))
          (tp : List Transparent2d),
          queue_material2d_view wPipeline wMeshes wMaterials
            wMaterialInstances 30 31 Mesh2dPipelineKey.NONE
            (0 :: rest) wSMP0 wMeshInstances op tp =
          queue_material2d_view wPipeline wMeshes wMaterials
            wMaterialInstances 30 31 Mesh2dPipelineKey.NONE
            rest wSMP0 wMeshInstances op tp)) ∧
      (∀ bk ent pt, act = QueueAction.opaque2d bk ent pt →
        ∀ (rest : List Nat)
          (op : List (Opaque2dBinKey × Nat × BinnedRenderPhaseType))
          (tp : List Transparent2d),
          queue_material2d_view wPipeline wMeshes wMaterials
            wMaterialInstances 30 31 Mesh2dPipelineKey.NONE
            (0 :: rest) wSMP0 wMeshInstances op tp =
          queue_material2d_view wPipeline wMeshes wMaterials
            wMaterialInstances 30 31 Mesh2dPipelineKey.NONE
            rest pipelines2 rmi2 (op ++ [(bk, ent, pt)]) tp) ∧
      (∀ item, act = QueueAction.transparent2d item →
        ∀ (rest : List Nat)
          (op : List (Opaque2dBinKey × Nat × BinnedRenderPhaseType))
          (tp : List Transparent2d),
          queue_material2d_view wPipeline wMeshes wMaterials
            wMaterialInstances 30 31 Mesh2dPipelineKey.NONE
            (0 :: rest) wSMP0 wMeshInstances op tp =
          queue_material2d_view wPipeline wMeshes wMaterials
            wMaterialInstances 30 31 Mesh2dPipelineKey.NONE
            rest pipelines2 rmi2 op (tp ++ [item])) :=
  queue_material2d_entity_partition wPipeline wMeshes wMaterials
    wMaterialInstances 30 31 Mesh2dPipelineKey.NONE wSMP0 wMeshInstances 0
    (fun _ _ _ _ hs => absurd hs (by decide))
